import Mathlib

/-!
Shallow embedding of the vnet virtual-network simulator
(tstest/natlab/vnet/vnet.go and conf.go): Ethernet frame fan-out,
the per-connection guest transport loop, DHCP/DNS/NAT-PMP/STUN
response synthesis, the per-network router dispatch, LAN IP
allocation, and the agent-connection registry.
-/

namespace VNet

/-- A 6-octet Ethernet MAC address (vnet.go: type MAC [6]byte). -/
structure MAC where
  b0 : Nat
  b1 : Nat
  b2 : Nat
  b3 : Nat
  b4 : Nat
  b5 : Nat
deriving DecidableEq

/-- The all-ones broadcast MAC address. -/
def broadcastMAC : MAC := ⟨0xff, 0xff, 0xff, 0xff, 0xff, 0xff⟩

/-- vnet.go MAC.IsBroadcast: reports whether the MAC is all-ones. -/
def MAC.isBroadcast (m : MAC) : Bool := decide (m = broadcastMAC)

/-- The six octets of a MAC address, in wire order. -/
def MAC.bytes (m : MAC) : List Nat := [m.b0, m.b1, m.b2, m.b3, m.b4, m.b5]

/-- An IPv4 address as four octets. -/
structure IPv4 where
  o0 : Nat
  o1 : Nat
  o2 : Nat
  o3 : Nat
deriving DecidableEq

/-- The four octets of an IPv4 address, in wire order. -/
def IPv4.bytes (ip : IPv4) : List Nat := [ip.o0, ip.o1, ip.o2, ip.o3]

/-- The 32-bit numeric value of an IPv4 address. -/
def IPv4.toNat (ip : IPv4) : Nat :=
  ((ip.o0 * 256 + ip.o1) * 256 + ip.o2) * 256 + ip.o3

/-- vnet.go fakeDNSIP = 4.11.4.11. -/
def fakeDNSIP : IPv4 := ⟨4, 11, 4, 11⟩

/-- vnet.go fakeControlplaneIP = 52.52.0.1. -/
def fakeControlplaneIP : IPv4 := ⟨52, 52, 0, 1⟩

/-- vnet.go fakeTestAgentIP = 52.52.0.2. -/
def fakeTestAgentIP : IPv4 := ⟨52, 52, 0, 2⟩

/-- The IPv4 unspecified address 0.0.0.0 (netip.IPv4Unspecified). -/
def unspecifiedIPv4 : IPv4 := ⟨0, 0, 0, 0⟩

/-- An address-and-port pair (netip.AddrPort). -/
structure AddrPort where
  addr : IPv4
  port : Nat
deriving DecidableEq

/-- First six bytes of a byte slice read as a MAC address
(vnet.go writeEth: MAC(res[0:6])); junk on short input, which the
caller guards against. -/
def macFromBytes : List Nat → MAC
  | b0 :: b1 :: b2 :: b3 :: b4 :: b5 :: _ => ⟨b0, b1, b2, b3, b4, b5⟩
  | _ => ⟨0, 0, 0, 0, 0, 0⟩

/-- vnet.go network.writeEth: writes a raw Ethernet frame to the
connected clients of a network. The registry is the network's
writeFunc map (MAC to writer), modelled as an association list of
MAC and writer id; the result is the list of registry entries whose
writer callback is invoked, in iteration order. A frame shorter than
12 bytes is ignored; a broadcast destination fans out to every
registered writer; a non-broadcast frame whose source equals its
destination is dropped; otherwise only the writer registered for the
destination MAC (if any) is invoked. -/
def writeEth (reg : List (MAC × Nat)) (res : List Nat) : List (MAC × Nat) :=
  if res.length < 12 then []
  else
    let dstMAC := macFromBytes res
    let srcMAC := macFromBytes (res.drop 6)
    if dstMAC.isBroadcast then reg
    else if srcMAC = dstMAC then []
    else
      match reg.find? (fun e => e.fst == dstMAC) with
      | some e => [e]
      | none => []

/-- Ethernet EtherType, as dispatched by network.HandleEthernetPacket. -/
inductive EtherType
  | arp
  | ipv4
  | ipv6
  | otherEtherType
deriving DecidableEq

/-- A parsed Ethernet frame: destination MAC, source MAC, EtherType,
and the remaining frame bytes after the two addresses. -/
structure EthernetPacket where
  dst : MAC
  src : MAC
  etherType : EtherType
  rest : List Nat
deriving DecidableEq

/-- The raw bytes of the frame (gopacket ep.gp.Data()): destination
MAC, then source MAC, then the rest of the frame. -/
def EthernetPacket.data (ep : EthernetPacket) : List Nat :=
  ep.dst.bytes ++ ep.src.bytes ++ ep.rest

/-- The LAN fan-out performed by network.HandleEthernetPacket for a
frame from the network's own segment: ARP is answered separately,
IPv6 and unknown EtherTypes are dropped, and an IPv4 frame is written
through writeEth to peers on the same network (vnet.go lines 588-611).
Returns the registry entries whose writer is invoked with the
original frame. -/
def handleEthernetPacketFanOut (reg : List (MAC × Nat)) (ep : EthernetPacket) :
    List (MAC × Nat) :=
  match ep.etherType with
  | .arp => []
  | .ipv6 => []
  | .otherEtherType => []
  | .ipv4 => writeEth reg ep.data

/-- State of one guest transport session in Server.ServeUnixConn:
the MAC locked onto (srcNode), the writer registrations performed,
and the frames handed to network.HandleEthernetPacket. -/
structure ServeState where
  locked : Option MAC
  registered : List MAC
  handled : List EthernetPacket
deriving DecidableEq

/-- One iteration of the read loop of Server.ServeUnixConn for a
parsed frame: before lock-on, a frame from an unknown MAC is ignored
and a frame from a known MAC locks the session, registers the writer
for that MAC and is handled; after lock-on, a frame whose source MAC
differs from the locked MAC is ignored, all others are handled. -/
def serveStep (nodeByMAC : List (MAC × Nat)) (st : ServeState)
    (ep : EthernetPacket) : ServeState :=
  match st.locked with
  | none =>
    match nodeByMAC.find? (fun e => e.fst == ep.src) with
    | none => st
    | some _ =>
      { locked := some ep.src
        registered := st.registered ++ [ep.src]
        handled := st.handled ++ [ep] }
  | some m =>
    if ep.src = m then { st with handled := st.handled ++ [ep] } else st

/-- The whole read loop of Server.ServeUnixConn over a list of parsed
frames, starting unlocked. -/
def serveConn (nodeByMAC : List (MAC × Nat)) (frames : List EthernetPacket) :
    ServeState :=
  frames.foldl (serveStep nodeByMAC) ⟨none, [], []⟩

/-- An IPv4 CIDR (netip.Prefix restricted to IPv4): an address
(possibly with host bits set) and a mask length. -/
structure IPv4Cidr where
  addr : IPv4
  bits : Nat
deriving DecidableEq

/-- netip.Prefix.Contains for IPv4: the top `bits` bits of the
candidate address agree with those of the CIDR's address. -/
def IPv4Cidr.contains (p : IPv4Cidr) (ip : IPv4) : Bool :=
  decide (ip.toNat / 2 ^ (32 - p.bits) = p.addr.toNat / 2 ^ (32 - p.bits))

/-- The default LAN CIDR applied by Server.initFromConfig when a
network's LAN IP is unset: 192.168.0.0/24 (conf.go line 166). -/
def defaultLanCidr : IPv4Cidr := ⟨⟨192, 168, 0, 0⟩, 24⟩

/-- LAN IP allocation in Server.initFromConfig (conf.go lines
199-203): the network's CIDR address with the final octet replaced by
101 + mac[5], computed in Go byte arithmetic (mod 256). -/
def allocLanIP (lan : IPv4Cidr) (mac : MAC) : IPv4 :=
  ⟨lan.addr.o0, lan.addr.o1, lan.addr.o2, (101 + mac.b5) % 256⟩

/-- The deterministic node MAC from Config.AddNode: 52:cc:cc:cc:cc
followed by the node index as a byte (conf.go line 41). -/
def nodeMAC (idx : Nat) : MAC := ⟨0x52, 0xcc, 0xcc, 0xcc, 0xcc, idx % 256⟩

/-- The deterministic router MAC from Config.AddNetwork:
52:ee:ee:ee:ee followed by the network index as a byte (conf.go line 73). -/
def routerMAC (idx : Nat) : MAC := ⟨0x52, 0xee, 0xee, 0xee, 0xee, idx % 256⟩

/-- DHCP option kinds used by Server.createDHCPResponse. -/
inductive DHCPOptionType
  | messageType
  | serverID
  | leaseTime
  | router
  | dns
  | subnetMask
deriving DecidableEq

/-- A DHCP option: kind plus data bytes. -/
structure DHCPOption where
  otype : DHCPOptionType
  data : List Nat
deriving DecidableEq

/-- Big-endian 4-byte encoding of a 32-bit value
(binary.BigEndian.AppendUint32). -/
def be32 (n : Nat) : List Nat :=
  [n / 2 ^ 24 % 256, n / 2 ^ 16 % 256, n / 2 ^ 8 % 256, n % 256]

/-- One octet of a 32-bit CIDR mask of the given length
(net.CIDRMask(bits, 32)), octet index i from 0. -/
def maskOctet (bits i : Nat) : Nat :=
  if 8 * (i + 1) ≤ bits then 255
  else if bits ≤ 8 * i then 0
  else 256 - 2 ^ (8 * (i + 1) - bits)

/-- The 4-octet subnet mask for a mask length (net.CIDRMask(bits, 32)). -/
def cidrMask (bits : Nat) : List Nat :=
  [maskOctet bits 0, maskOctet bits 1, maskOctet bits 2, maskOctet bits 3]

/-- A runtime node as materialized by Server.initFromConfig,
flattened with the fields of its (single) network that the router
uses: the node's MAC and LAN IP, the network's LAN CIDR and the
network's router MAC. -/
structure NodeR where
  mac : MAC
  lanIP : IPv4
  lanCidr : IPv4Cidr
  netMAC : MAC
deriving DecidableEq

/-- The parts of an inbound DHCPv4 request that
Server.createDHCPResponse reads: Ethernet source MAC, IPv4
source/destination, UDP ports, transaction id, client hardware
address, flags, and the request's DHCP options. -/
structure DHCPRequestPkt where
  srcMAC : MAC
  ipSrc : IPv4
  ipDst : IPv4
  udpSrcPort : Nat
  udpDstPort : Nat
  xid : Nat
  flags : Nat
  clientHWAddr : MAC
  options : List DHCPOption
deriving DecidableEq

/-- The response frame built by Server.createDHCPResponse, with the
fields the code sets on the Ethernet, IPv4, UDP and DHCPv4 layers. -/
structure DHCPResponseFrame where
  ethSrc : MAC
  ethDst : MAC
  ipSrc : IPv4
  ipDst : IPv4
  udpSrcPort : Nat
  udpDstPort : Nat
  isReply : Bool
  xid : Nat
  flags : Nat
  clientHWAddr : MAC
  yourClientIP : IPv4
  options : List DHCPOption
deriving DecidableEq

/-- The message-type scan in Server.createDHCPResponse (lines
789-794): the loop keeps the first data byte of the last non-empty
message-type option, defaulting to 0. -/
def dhcpMsgTypeOf (opts : List DHCPOption) : Nat :=
  opts.foldl
    (fun acc o =>
      match o.otype, o.data with
      | .messageType, d0 :: _ => d0
      | _, _ => acc)
    0

/-- Server.createDHCPResponse (vnet.go lines 755-864): look up the
requesting node by its source MAC (unknown MAC: no response); reply
with YourClientIP = the node's LAN IP and a server-ID option holding
the network's gateway IP (the LAN CIDR's address); a Discover (1)
gets an Offer (2) message type; a Request (3) gets an Ack (5) plus
lease-time 3600, router, DNS and subnet-mask options. The reply is
wrapped with the router's source MAC and the request's addressing
reversed. -/
def createDHCPResponse (nodes : List NodeR) (req : DHCPRequestPkt) :
    Option DHCPResponseFrame :=
  match nodes.find? (fun n => n.mac == req.srcMAC) with
  | none => none
  | some node =>
    let gwIP := node.lanCidr.addr
    let msgType := dhcpMsgTypeOf req.options
    let extra : List DHCPOption :=
      if msgType = 1 then
        [⟨.messageType, [2]⟩]
      else if msgType = 3 then
        [⟨.messageType, [5]⟩,
         ⟨.leaseTime, be32 3600⟩,
         ⟨.router, gwIP.bytes⟩,
         ⟨.dns, fakeDNSIP.bytes⟩,
         ⟨.subnetMask, cidrMask node.lanCidr.bits⟩]
      else []
    some
      { ethSrc := node.netMAC
        ethDst := req.srcMAC
        ipSrc := req.ipDst
        ipDst := req.ipSrc
        udpSrcPort := req.udpDstPort
        udpDstPort := req.udpSrcPort
        isReply := true
        xid := req.xid
        flags := req.flags
        clientHWAddr := req.clientHWAddr
        yourClientIP := node.lanIP
        options := ⟨.serverID, gwIP.bytes⟩ :: extra }

/-- DNS record type, as far as the fake DNS server distinguishes. -/
inductive DNSType
  | typeA
  | otherType
deriving DecidableEq

/-- DNS record class, as far as the fake DNS server distinguishes. -/
inductive DNSClass
  | classIN
  | otherClass
deriving DecidableEq

/-- A DNS question: name (as characters), type and class. -/
structure DNSQuestion where
  qname : List Char
  qtype : DNSType
  qclass : DNSClass
deriving DecidableEq

/-- A DNS answer resource record as built by Server.createDNSResponse. -/
structure DNSAnswer where
  aname : List Char
  atype : DNSType
  aclass : DNSClass
  ip : IPv4
  ttl : Nat
deriving DecidableEq

/-- The parts of an inbound DNS query message that
Server.createDNSResponse reads. OpCode 0 is QUERY. -/
structure DNSRequestMsg where
  ident : Nat
  qr : Bool
  rd : Bool
  opCode : Nat
  questions : List DNSQuestion
deriving DecidableEq

/-- The DNS response message built by Server.createDNSResponse.
RCode 0 is NoError. -/
structure DNSResponseMsg where
  ident : Nat
  qr : Bool
  aa : Bool
  tc : Bool
  rd : Bool
  ra : Bool
  opCode : Nat
  rcode : Nat
  questions : List DNSQuestion
  answers : List DNSAnswer
deriving DecidableEq

/-- Server.IPv4ForDNS (vnet.go lines 431-441): the synthetic IPv4
address for a DNS A query name, if any. -/
def ipv4ForDNS (qname : List Char) : Option IPv4 :=
  if qname = "dns".toList then some fakeDNSIP
  else if qname = "test-driver.tailscale".toList then some fakeTestAgentIP
  else if qname = "controlplane.tailscale.com".toList then some fakeControlplaneIP
  else none

/-- Whether a question name ends in ".pool.ntp.org"
(mem.HasSuffix in Server.createDNSResponse). -/
def hasNTPSuffix (q : DNSQuestion) : Bool :=
  ".pool.ntp.org".toList.isSuffixOf q.qname

/-- The answer records contributed by one question in the loop of
Server.createDNSResponse: a class-IN type-A question whose name has a
synthetic IP yields one record with TTL 60; anything else yields none. -/
def answerFor (q : DNSQuestion) : List DNSAnswer :=
  if q.qclass = DNSClass.classIN ∧ q.qtype = DNSType.typeA then
    match ipv4ForDNS q.qname with
    | some ip => [⟨q.qname, q.qtype, q.qclass, ip, 60⟩]
    | none => []
  else []

/-- The question loop of Server.createDNSResponse: every question is
echoed into the response; a question name ending in ".pool.ntp.org"
makes the whole function return nil (no response); each remaining
question contributes its answer records. Returns the echoed questions
and accumulated answers, or none when the response is suppressed. -/
def processQuestions : List DNSQuestion → Option (List DNSQuestion × List DNSAnswer)
  | [] => some ([], [])
  | q :: qs =>
    if hasNTPSuffix q then none
    else
      match processQuestions qs with
      | none => none
      | some (qs2, ans2) => some (q :: qs2, answerFor q ++ ans2)

/-- Server.createDNSResponse (vnet.go lines 946-1031): a message that
is not a query (OpCode 0, QR false) or has no questions gets no
response; otherwise the response echoes the ID, RD and all questions,
sets QR, AA and RA, clears TC, uses OpCode QUERY and RCODE NoError,
and answers the recognized class-IN type-A names with TTL 60; any
question name ending in ".pool.ntp.org" suppresses the response. -/
def createDNSResponse (req : DNSRequestMsg) : Option DNSResponseMsg :=
  if req.opCode ≠ 0 ∨ req.qr = true ∨ req.questions = [] then none
  else
    match processQuestions req.questions with
    | none => none
    | some (qs, ans) =>
      some
        { ident := req.ident
          qr := true
          aa := true
          tc := false
          rd := req.rd
          ra := true
          opCode := 0
          rcode := 0
          questions := qs
          answers := ans }

/-- Spec-side description of the DNS answering rule, following the
specification's words: for a question of class IN and type A, the
names dns, test-driver.tailscale and controlplane.tailscale.com map
to 4.11.4.11, 52.52.0.2 and 52.52.0.1 respectively, answered with
TTL 60; every other question gets no answer. -/
def specDNSAnswer (q : DNSQuestion) : Option DNSAnswer :=
  if q.qclass = DNSClass.classIN ∧ q.qtype = DNSType.typeA then
    if q.qname = "dns".toList then
      some ⟨q.qname, q.qtype, q.qclass, ⟨4, 11, 4, 11⟩, 60⟩
    else if q.qname = "test-driver.tailscale".toList then
      some ⟨q.qname, q.qtype, q.qclass, ⟨52, 52, 0, 2⟩, 60⟩
    else if q.qname = "controlplane.tailscale.com".toList then
      some ⟨q.qname, q.qtype, q.qclass, ⟨52, 52, 0, 1⟩, 60⟩
    else none
  else none

/-- Transport-layer view of an IPv4 packet as the router's dispatch
inspects it: a UDP datagram (ports, payload, and the parsed DNS layer
if one is present), a TCP segment (ports), an IGMP message, or
something else. -/
inductive TransportView
  | udp (srcPort dstPort : Nat) (payload : List Nat) (dns : Option DNSRequestMsg)
  | tcp (srcPort dstPort : Nat)
  | igmp
  | otherTransport
deriving DecidableEq

/-- The fields of an IPv4 packet read by
network.HandleEthernetIPv4PacketForRouter. -/
structure IPv4PacketView where
  srcIP : IPv4
  dstIP : IPv4
  transport : TransportView
deriving DecidableEq

/-- vnet.go isDHCPRequest: a UDP datagram from port 68 to port 67. -/
def isDHCPRequest (p : IPv4PacketView) : Bool :=
  match p.transport with
  | .udp s d _ _ => decide (d = 67 ∧ s = 68)
  | _ => false

/-- vnet.go isMDNSQuery: a UDP datagram from port 5353 to port 5353. -/
def isMDNSQuery (p : IPv4PacketView) : Bool :=
  match p.transport with
  | .udp s d _ _ => decide (s = 5353 ∧ d = 5353)
  | _ => false

/-- vnet.go isIGMP: the packet has an IGMP layer. -/
def isIGMP (p : IPv4PacketView) : Bool :=
  decide (p.transport = .igmp)

/-- vnet.go isDNSRequest: a UDP datagram to port 53 at the fake DNS
server IP whose DNS layer is a query (QR false) with at least one
question. -/
def isDNSRequest (p : IPv4PacketView) : Bool :=
  match p.transport with
  | .udp _ d _ dns =>
    decide (d = 53) && decide (p.dstIP = fakeDNSIP) &&
      (match dns with
       | some m => !m.qr && decide (m.questions ≠ [])
       | none => false)
  | _ => false

/-- vnet.go isNATPMP: a UDP datagram to port 5351 whose payload is
nonempty and starts with version byte 0. -/
def isNATPMP (p : IPv4PacketView) : Bool :=
  match p.transport with
  | .udp _ d payload _ => decide (d = 5351) && decide (payload.head? = some 0)
  | _ => false

/-- Whether the packet carries UDP. -/
def isUDP (p : IPv4PacketView) : Bool :=
  match p.transport with
  | .udp _ _ _ _ => true
  | _ => false

/-- Server.shouldInterceptTCP (vnet.go lines 885-908): destination
port 123 to any IP; port 80 or 443 to the fake control plane or a
DERP IP; or port 8008 to the fake test agent IP. -/
def shouldInterceptTCP (derpIPs : List IPv4) (p : IPv4PacketView) : Bool :=
  match p.transport with
  | .tcp _ dstPort =>
    if dstPort = 123 then true
    else if (dstPort = 80 ∨ dstPort = 443) ∧
        (p.dstIP = fakeControlplaneIP ∨ p.dstIP ∈ derpIPs) then true
    else if dstPort = 8008 ∧ p.dstIP = fakeTestAgentIP then true
    else false
  | _ => false

/-- The action network.HandleEthernetIPv4PacketForRouter takes on a
packet addressed to the router. -/
inductive RouterAction
  | respondDHCP
  | silentDrop
  | respondDNS
  | respondNATPMP
  | forwardUDP
  | injectTCP
  | noAction
deriving DecidableEq

/-- The dispatch order of network.HandleEthernetIPv4PacketForRouter
(vnet.go lines 677-753): DHCP, then the mDNS/IGMP silent drop, then
DNS, then NAT-PMP for packets addressed to the router itself, then
off-LAN UDP forwarding, then TCP interception; everything else is
ignored. toForward means the destination IP is neither the router's
LAN address nor 0.0.0.0. -/
def handleIPv4ForRouter (lanAddr : IPv4) (derpIPs : List IPv4)
    (p : IPv4PacketView) : RouterAction :=
  let toForward := p.dstIP ≠ lanAddr ∧ p.dstIP ≠ unspecifiedIPv4
  if isDHCPRequest p then .respondDHCP
  else if isMDNSQuery p ∨ isIGMP p then .silentDrop
  else if isDNSRequest p then .respondDNS
  else if ¬toForward ∧ isNATPMP p then .respondNATPMP
  else if toForward ∧ isUDP p then .forwardUDP
  else if toForward ∧ shouldInterceptTCP derpIPs p then .injectTCP
  else .noAction

/-- A UDP packet as NATed and routed on the synthetic WAN
(vnet.go type UDPPacket). -/
structure UDPPacket where
  src : AddrPort
  dst : AddrPort
  payload : List Nat
deriving DecidableEq

/-- network.handleNATPMPRequest (vnet.go lines 1100-1123): a payload
of exactly 00 00 (the public-address announcement request) is
answered, with source and destination swapped, by a 12-octet reply of
version 0, opcode 128, 16-bit result code 0, the 32-bit big-endian
seconds since epoch, and the 4-octet WAN IP; every other payload is
logged and dropped. `now` is the Unix time, truncated to 32 bits as
by uint32 conversion. -/
def handleNATPMPRequest (now : Nat) (wanIP : IPv4) (req : UDPPacket) :
    Option UDPPacket :=
  if req.payload = [0, 0] then
    some
      { src := req.dst
        dst := req.src
        payload := [0, 128, 0, 0] ++ be32 (now % 2 ^ 32) ++ wanIP.bytes }
  else none

/-- Payload of a UDP packet on the synthetic WAN, as far as the STUN
reflector distinguishes it: a STUN binding request carrying a
transaction id, a STUN binding success response carrying a
transaction id and a mapped address, or arbitrary other bytes. -/
inductive WANPayload
  | stunRequest (txid : Nat)
  | stunSuccess (txid : Nat) (mapped : AddrPort)
  | rawPayload (bytes : List Nat)
deriving DecidableEq

/-- Modelled from the spec: stun.ParseBindingRequest from
tailscale.com/net/stun is not under src/. Per the spec it parses a
STUN binding request from the payload, yielding its transaction id on
success; a non-request payload fails to parse. -/
def parseBindingRequest : WANPayload → Option Nat
  | .stunRequest t => some t
  | _ => none

/-- Modelled from the spec: stun.Response from tailscale.com/net/stun
is not under src/. Per the spec it builds a STUN binding success
response whose mapped address is the given address. -/
def stunResponse (txid : Nat) (mapped : AddrPort) : WANPayload :=
  .stunSuccess txid mapped

/-- A UDP packet on the synthetic WAN with a STUN-aware payload view. -/
structure WANUDPPacket where
  src : AddrPort
  dst : AddrPort
  payload : WANPayload
deriving DecidableEq

/-- vnet.go makeSTUNReply (lines 933-944): parse a binding request
from the payload; on success the reply swaps source and destination
and carries a binding success response whose mapped address is the
request's source. -/
def makeSTUNReply (req : WANUDPPacket) : Option WANUDPPacket :=
  match parseBindingRequest req.payload with
  | none => none
  | some txid => some ⟨req.dst, req.src, stunResponse txid req.src⟩

/-- Observable outcome of routing one UDP packet on the WAN switch. -/
inductive RouteEvent
  | handledBy (wan : IPv4) (p : WANUDPPacket)
  | dropNoNetwork (p : WANUDPPacket)
  | dropBadSTUN (p : WANUDPPacket)
deriving DecidableEq

/-- Server.routeUDPPacket (vnet.go lines 533-552): destination port
3478 is served by the in-process STUN reflector, whose reply is
routed back through this same entry point (an unparsable STUN payload
is dropped); otherwise the destination network is looked up by the
destination WAN IP and handles the packet, and an unknown WAN IP is
dropped with a log line. The fuel bounds the recursion depth of the
shallow embedding; the code recurses at most once per STUN request. -/
def routeUDPPacket (wanIPs : List IPv4) : Nat → WANUDPPacket → List RouteEvent
  | 0, _ => []
  | fuel + 1, p =>
    if p.dst.port = 3478 then
      match makeSTUNReply p with
      | some res => routeUDPPacket wanIPs fuel res
      | none => [.dropBadSTUN p]
    else if p.dst.addr ∈ wanIPs then [.handledBy p.dst.addr p]
    else [.dropNoNetwork p]

/-- A queued agent connection (vnet.go type agentConn), identified by
a connection id and the id of the node it came from. -/
structure AgentConn where
  connId : Nat
  nodeId : Nat
deriving DecidableEq

/-- Server.takeAgentConnOne (vnet.go lines 1187-1197), which runs
under the server-wide mutex: scan the set of idle agent connections
for one from the given node; when found, delete it from the set and
return it, else return nothing and leave the set unchanged. The set
is modelled as a duplicate-free list. -/
def takeAgentConnOne (conns : List AgentConn) (n : Nat) :
    Option AgentConn × List AgentConn :=
  match conns.find? (fun ac => ac.nodeId == n) with
  | some ac => (some ac, conns.erase ac)
  | none => (none, conns)

/-- The MAC of the first configured node, 52:cc:cc:cc:cc:00. -/
def macA : MAC := nodeMAC 0

/-- The MAC of the second configured node, 52:cc:cc:cc:cc:01. -/
def macB : MAC := nodeMAC 1

/-- A registry with the writers of two connected nodes. -/
def regC1 : List (MAC × Nat) := [(macA, 1), (macB, 2)]

/-- An IPv4 Ethernet broadcast frame sent by the first node. -/
def epC1 : EthernetPacket := ⟨broadcastMAC, macA, .ipv4, [8, 0]⟩

/-- A DHCP Discover broadcast by the node with MAC 52:cc:cc:cc:cc:00,
as in the DHCP lease scenario. -/
def discoverC2 : DHCPRequestPkt :=
  { srcMAC := nodeMAC 0
    ipSrc := ⟨0, 0, 0, 0⟩
    ipDst := ⟨255, 255, 255, 255⟩
    udpSrcPort := 68
    udpDstPort := 67
    xid := 42
    flags := 0
    clientHWAddr := nodeMAC 0
    options := [⟨.messageType, [1]⟩] }

/-- The runtime node materialized for the DHCP lease scenario: node 0
on the default network 192.168.0.0/24. -/
def nodeC2 : NodeR :=
  ⟨nodeMAC 0, allocLanIP defaultLanCidr (nodeMAC 0), defaultLanCidr, routerMAC 0⟩

/-- A node table knowing only the first node. -/
def byMACex : List (MAC × Nat) := [(macA, 10)]

/-- A frame from the known first node. -/
def epA : EthernetPacket := ⟨macB, macA, .ipv4, []⟩

/-- A frame whose source MAC differs from the session's locked MAC. -/
def epBadSrc : EthernetPacket := ⟨macA, macB, .ipv4, []⟩

/-- A transport session's frames: one from the locked MAC, then one
from a different source MAC. -/
def framesC3 : List EthernetPacket := [epA, epBadSrc]

/-- A DNS query for the A record of controlplane.tailscale.com. -/
def reqC5 : DNSRequestMsg :=
  ⟨7, false, true, 0, [⟨"controlplane.tailscale.com".toList, .typeA, .classIN⟩]⟩

/-- A non-local TCP segment to port 123. -/
def pC6 : IPv4PacketView := ⟨⟨192, 168, 0, 101⟩, ⟨99, 99, 99, 99⟩, .tcp 5555 123⟩

/-- A STUN binding request arriving on the WAN at port 3478. -/
def pC7 : WANUDPPacket := ⟨⟨⟨2, 0, 0, 5⟩, 777⟩, ⟨⟨2, 0, 0, 9⟩, 3478⟩, .stunRequest 99⟩

/-- A non-STUN WAN packet to an unknown WAN IP. -/
def qC7 : WANUDPPacket := ⟨⟨⟨2, 0, 0, 5⟩, 777⟩, ⟨⟨9, 9, 9, 9⟩, 1234⟩, .rawPayload []⟩

/-- A NAT-PMP public-address request datagram. -/
def reqC8 : UDPPacket :=
  ⟨⟨⟨192, 168, 0, 101⟩, 4444⟩, ⟨⟨192, 168, 0, 1⟩, 5351⟩, [0, 0]⟩

/-- A NAT-PMP datagram with a non-announce body. -/
def badC8 : UDPPacket :=
  ⟨⟨⟨192, 168, 0, 101⟩, 4444⟩, ⟨⟨192, 168, 0, 1⟩, 5351⟩, [0, 1, 0, 0]⟩

/-- The router-level view of the NAT-PMP request datagram. -/
def pC8 : IPv4PacketView :=
  ⟨⟨192, 168, 0, 101⟩, ⟨192, 168, 0, 1⟩, .udp 4444 5351 [0, 0] none⟩

/-- Reading a MAC back out of its own wire bytes, whatever follows. -/
theorem macFromBytes_bytes_append (m : MAC) (l : List Nat) :
    macFromBytes (m.bytes ++ l) = m := rfl

/-- On a frame of at least 12 bytes whose destination MAC is the
broadcast address, writeEth invokes every registered writer. -/
theorem writeEth_broadcast (reg : List (MAC × Nat)) (res : List Nat)
    (hlen : 12 ≤ res.length) (hb : macFromBytes res = broadcastMAC) :
    writeEth reg res = reg := by
  unfold writeEth
  rw [if_neg (by omega)]
  simp [hb, MAC.isBroadcast]

/-- C1, counterexample to the claim as stated: the first node sends an
IPv4 Ethernet broadcast on a network where its own writer and a
peer's writer are registered, and HandleEthernetPacket's LAN fan-out
invokes the sender's own writer as well — the broadcast branch of
writeEth ranges over every registered writer, including the one
registered for the frame's source MAC, so the sending node does
receive a copy. -/
theorem claim_C1_counterexample :
    epC1.src = macA ∧ epC1.dst = broadcastMAC ∧
    handleEthernetPacketFanOut regC1 epC1 = [(macA, 1), (macB, 2)] := by
  decide

/-- C1 (amended): when a node sends an Ethernet frame whose
destination MAC is the broadcast address, every registered MAC on the
same network — including the sender — receives exactly one copy of
the frame. -/
theorem claim_C1 (reg : List (MAC × Nat)) (ep : EthernetPacket)
    (htype : ep.etherType = .ipv4) (hdst : ep.dst = broadcastMAC)
    (hnodup : (reg.map Prod.fst).Nodup) (m : MAC) (hm : m ∈ reg.map Prod.fst) :
    ((handleEthernetPacketFanOut reg ep).map Prod.fst).count m = 1 := by
  have hfan : handleEthernetPacketFanOut reg ep = writeEth reg ep.data := by
    unfold handleEthernetPacketFanOut
    rw [htype]
  have hlen : 12 ≤ ep.data.length := by
    simp [EthernetPacket.data, MAC.bytes]
  have hmac : macFromBytes ep.data = ep.dst := rfl
  rw [hfan, writeEth_broadcast reg ep.data hlen (hmac.trans hdst)]
  exact List.count_eq_one_of_mem hnodup hm

/-- C1, witness: on the two-writer registry, the peer's MAC receives
exactly one copy of the broadcast. -/
theorem claim_C1_witness :
    ((handleEthernetPacketFanOut regC1 epC1).map Prod.fst).count macB = 1 :=
  claim_C1 regC1 epC1 rfl rfl (by decide) macB (by decide)

/-- C4, counterexample to the claim as stated: a 12-byte frame whose
destination and source MAC are both all-ones has destination equal to
source, yet writeEth's broadcast branch (checked before the
self-addressed drop) invokes the registered writer. -/
theorem claim_C4_counterexample :
    macFromBytes (List.replicate 12 255) =
      macFromBytes ((List.replicate 12 255).drop 6) ∧
    writeEth [(⟨1, 2, 3, 4, 5, 6⟩, 7)] (List.replicate 12 255) =
      [(⟨1, 2, 3, 4, 5, 6⟩, 7)] := by
  decide

/-- C4 (amended): a frame whose destination MAC (bytes 0-5) equals
its source MAC (bytes 6-11) is delivered to no writer callback,
unless that MAC is the all-ones broadcast address, in which case the
broadcast branch fans it out to every registered writer. -/
theorem claim_C4 (reg : List (MAC × Nat)) (res : List Nat)
    (heq : macFromBytes res = macFromBytes (res.drop 6))
    (hnb : (macFromBytes res).isBroadcast = false) :
    writeEth reg res = [] := by
  unfold writeEth
  split
  · rfl
  · simp [hnb, ← heq]

/-- C4, witness: a 12-byte non-broadcast frame from a MAC to itself
is dropped even with a writer registered. -/
theorem claim_C4_witness :
    writeEth [(⟨9, 9, 9, 9, 9, 9⟩, 1)] [1, 1, 1, 1, 1, 1, 1, 1, 1, 1, 1, 1] = [] :=
  claim_C4 _ _ (by decide) (by decide)

/-- Once a transport session is locked onto a MAC, the rest of the
frame loop keeps the lock and the registration, and only adds handled
frames whose source MAC is the locked MAC. -/
theorem serve_foldl_locked (byMAC : List (MAC × Nat)) (frames : List EthernetPacket)
    (m : MAC) (reg : List MAC) :
    ∀ hnd : List EthernetPacket,
      (frames.foldl (serveStep byMAC) ⟨some m, reg, hnd⟩).locked = some m ∧
      (frames.foldl (serveStep byMAC) ⟨some m, reg, hnd⟩).registered = reg ∧
      ∀ ep ∈ (frames.foldl (serveStep byMAC) ⟨some m, reg, hnd⟩).handled,
        ep ∈ hnd ∨ ep.src = m := by
  induction frames with
  | nil =>
    intro hnd
    exact ⟨rfl, rfl, fun ep hep => Or.inl hep⟩
  | cons f fs ih =>
    intro hnd
    by_cases hf : f.src = m
    · have hstep : serveStep byMAC ⟨some m, reg, hnd⟩ f = ⟨some m, reg, hnd ++ [f]⟩ := by
        simp [serveStep, hf]
      rw [List.foldl_cons, hstep]
      obtain ⟨h1, h2, h3⟩ := ih (hnd ++ [f])
      refine ⟨h1, h2, ?_⟩
      intro ep hep
      rcases h3 ep hep with h | h
      · rcases List.mem_append.mp h with h' | h'
        · exact Or.inl h'
        · right
          rw [List.mem_singleton.mp h']
          exact hf
      · exact Or.inr h
    · have hstep : serveStep byMAC ⟨some m, reg, hnd⟩ f = ⟨some m, reg, hnd⟩ := by
        simp [serveStep, hf]
      rw [List.foldl_cons, hstep]
      exact ih hnd

/-- Characterization of a whole transport session: the locked MAC is
the source MAC of the first frame from a known node, exactly that MAC
is registered, and every handled frame bears the locked source MAC. -/
theorem serveConn_spec (byMAC : List (MAC × Nat)) (frames : List EthernetPacket) :
    (serveConn byMAC frames).locked =
      (frames.find? (fun f => (byMAC.find? (fun e => e.fst == f.src)).isSome)).map
        EthernetPacket.src ∧
    (serveConn byMAC frames).registered =
      ((frames.find? (fun f => (byMAC.find? (fun e => e.fst == f.src)).isSome)).map
        EthernetPacket.src).toList ∧
    ∀ ep ∈ (serveConn byMAC frames).handled,
      some ep.src = (serveConn byMAC frames).locked := by
  induction frames with
  | nil =>
    refine ⟨rfl, rfl, ?_⟩
    intro ep hep
    cases hep
  | cons f fs ih =>
    unfold serveConn
    rw [List.foldl_cons]
    cases hl : byMAC.find? (fun e => e.fst == f.src) with
    | none =>
      have hstep : serveStep byMAC ⟨none, [], []⟩ f = ⟨none, [], []⟩ := by
        simp [serveStep, hl]
      have hpred : ¬((byMAC.find? (fun e => e.fst == f.src)).isSome = true) := by
        rw [hl]
        simp
      rw [hstep,
        List.find?_cons_of_neg
          (p := fun f => (byMAC.find? (fun e => e.fst == f.src)).isSome) fs hpred]
      exact ih
    | some e =>
      have hstep : serveStep byMAC ⟨none, [], []⟩ f = ⟨some f.src, [f.src], [f]⟩ := by
        simp [serveStep, hl]
      have hpred : (byMAC.find? (fun e => e.fst == f.src)).isSome = true := by
        rw [hl]
        rfl
      rw [hstep,
        List.find?_cons_of_pos
          (p := fun f => (byMAC.find? (fun e => e.fst == f.src)).isSome) fs hpred]
      obtain ⟨h1, h2, h3⟩ := serve_foldl_locked byMAC fs f.src [f.src] [f]
      refine ⟨by rw [h1]; rfl, by rw [h2]; rfl, ?_⟩
      intro ep hep
      rw [h1]
      rcases h3 ep hep with h | h
      · rw [List.mem_singleton.mp h]
      · rw [h]

/-- C3: a guest transport session locks onto the source MAC of the
first frame whose source MAC belongs to a known node, registers
exactly that MAC's writer, and every frame it hands to the router
bears the locked source MAC — frames with any other source MAC are
dropped without being handled. -/
theorem claim_C3 (byMAC : List (MAC × Nat)) (frames : List EthernetPacket)
    (ep : EthernetPacket)
    (hep : ep ∈ (serveConn byMAC frames).handled) :
    (serveConn byMAC frames).locked =
      (frames.find? (fun f => (byMAC.find? (fun e => e.fst == f.src)).isSome)).map
        EthernetPacket.src ∧
    (serveConn byMAC frames).registered =
      ((frames.find? (fun f => (byMAC.find? (fun e => e.fst == f.src)).isSome)).map
        EthernetPacket.src).toList ∧
    some ep.src = (serveConn byMAC frames).locked := by
  obtain ⟨h1, h2, h3⟩ := serveConn_spec byMAC frames
  exact ⟨h1, h2, h3 ep hep⟩

/-- C3, witness: a session seeing a frame from the known node and
then a frame from a different MAC locks onto, registers and handles
only the known node's MAC. -/
theorem claim_C3_witness :
    (serveConn byMACex framesC3).locked =
      (framesC3.find? (fun f => (byMACex.find? (fun e => e.fst == f.src)).isSome)).map
        EthernetPacket.src ∧
    (serveConn byMACex framesC3).registered =
      ((framesC3.find? (fun f => (byMACex.find? (fun e => e.fst == f.src)).isSome)).map
        EthernetPacket.src).toList ∧
    some epA.src = (serveConn byMACex framesC3).locked :=
  claim_C3 byMACex framesC3 epA (by decide)

/-- C2: evaluation at the claim's own scenario input. On the default
network (LAN CIDR defaulted to 192.168.0.0/24, host bits unset), a
DHCP Discover from the node with MAC 52:cc:cc:cc:cc:00 is answered
with YourClientIP 192.168.0.101 and message type Offer as claimed,
but the server-ID option carries 192.168.0.0 — the LAN CIDR's address
— and not the router IP 192.168.0.1 the claim states. -/
theorem claim_C2 :
    (createDHCPResponse [nodeC2] discoverC2).map
        (fun r => (r.yourClientIP, r.options)) =
      some (⟨192, 168, 0, 101⟩,
        [⟨.serverID, [192, 168, 0, 0]⟩, ⟨.messageType, [2]⟩]) ∧
    ([192, 168, 0, 0] : List Nat) ≠ [192, 168, 0, 1] := by
  decide

/-- C9, counterexample to the claim as stated: on a network with LAN
CIDR 192.168.0.0/25 the node whose MAC's low byte is 27 is allocated
192.168.0.128 — the prefix address with final octet 101 + 27 — but
that address lies outside the /25 prefix. -/
theorem claim_C9_counterexample :
    allocLanIP ⟨⟨192, 168, 0, 0⟩, 25⟩ (nodeMAC 27) = ⟨192, 168, 0, 128⟩ ∧
    (⟨⟨192, 168, 0, 0⟩, 25⟩ : IPv4Cidr).contains
      (allocLanIP ⟨⟨192, 168, 0, 0⟩, 25⟩ (nodeMAC 27)) = false := by
  decide

/-- Dividing out the final octet: two 32-bit values that agree above
their final octet agree after any right shift of at least 8 bits. -/
theorem div_octet (x d k : Nat) (hd : d < 256) :
    (x * 256 + d) / 2 ^ (8 + k) = x / 2 ^ k := by
  rw [pow_add]
  show (x * 256 + d) / (2 ^ 8 * 2 ^ k) = x / 2 ^ k
  rw [← Nat.div_div_eq_div_mul]
  congr 1
  show (x * 256 + d) / 256 = x
  rw [Nat.mul_comm x 256, Nat.mul_add_div (by norm_num), Nat.div_eq_of_lt hd,
    Nat.add_zero]

/-- C9 (amended): a node's LAN IP is the network's CIDR address with
the final octet replaced by (101 + the MAC's low byte) mod 256, and
whenever the LAN mask length is at most 24 bits the allocated address
lies inside the LAN prefix. -/
theorem claim_C9 (lan : IPv4Cidr) (mac : MAC)
    (hbits : lan.bits ≤ 24) (ho3 : lan.addr.o3 < 256) :
    (allocLanIP lan mac).o3 = (101 + mac.b5) % 256 ∧
    lan.contains (allocLanIP lan mac) = true := by
  refine ⟨rfl, ?_⟩
  unfold IPv4Cidr.contains
  rw [decide_eq_true_eq]
  have h32 : 32 - lan.bits = 8 + (24 - lan.bits) := by omega
  rw [h32]
  have ha : (allocLanIP lan mac).toNat =
      ((lan.addr.o0 * 256 + lan.addr.o1) * 256 + lan.addr.o2) * 256 +
        (101 + mac.b5) % 256 := rfl
  have hb : lan.addr.toNat =
      ((lan.addr.o0 * 256 + lan.addr.o1) * 256 + lan.addr.o2) * 256 +
        lan.addr.o3 := rfl
  rw [ha, hb, div_octet _ _ _ (Nat.mod_lt _ (by norm_num)),
    div_octet _ _ _ ho3]

/-- C9, witness: on the default network, node 0 gets final octet 101
and the address lies inside 192.168.0.0/24. -/
theorem claim_C9_witness :
    (allocLanIP defaultLanCidr (nodeMAC 0)).o3 = (101 + (nodeMAC 0).b5) % 256 ∧
    defaultLanCidr.contains (allocLanIP defaultLanCidr (nodeMAC 0)) = true :=
  claim_C9 defaultLanCidr (nodeMAC 0) (by decide) (by decide)

/-- The per-question answer of the source's loop agrees with the
spec-side answering rule. -/
theorem answerFor_eq_spec (q : DNSQuestion) :
    answerFor q = (specDNSAnswer q).toList := by
  unfold answerFor specDNSAnswer ipv4ForDNS
  split_ifs <;> simp [fakeDNSIP, fakeTestAgentIP, fakeControlplaneIP]

/-- When no question name ends in ".pool.ntp.org", the question loop
echoes every question and answers per the spec-side rule. -/
theorem processQuestions_of_no_ntp :
    ∀ qs : List DNSQuestion, (∀ q ∈ qs, hasNTPSuffix q = false) →
      processQuestions qs = some (qs, qs.filterMap specDNSAnswer)
  | [], _ => rfl
  | q :: qs, h => by
    have hq : hasNTPSuffix q = false := h q (List.mem_cons_self q qs)
    have ih := processQuestions_of_no_ntp qs
      (fun x hx => h x (List.mem_cons_of_mem q hx))
    unfold processQuestions
    simp only [hq, Bool.false_eq_true, if_false, ih]
    rw [answerFor_eq_spec q]
    cases hsq : specDNSAnswer q <;> simp [List.filterMap_cons, hsq]

/-- When some question name ends in ".pool.ntp.org", the question
loop aborts with no response. -/
theorem processQuestions_of_ntp :
    ∀ qs : List DNSQuestion, qs.any hasNTPSuffix = true →
      processQuestions qs = none
  | [], h => by simp at h
  | q :: qs, h => by
    unfold processQuestions
    by_cases hq : hasNTPSuffix q = true
    · simp [hq]
    · have hq' : hasNTPSuffix q = false := by simpa using hq
      have htail : qs.any hasNTPSuffix = true := by
        simpa [List.any_cons, hq'] using h
      rw [processQuestions_of_ntp qs htail]
      simp [hq']

/-- C5: for a DNS query (OpCode QUERY, QR clear, at least one
question) to the fake DNS server, if any question name ends in
".pool.ntp.org" no response is produced at all; otherwise the
response echoes the ID, RD and every question, sets QR, AA and RA
with RCODE NoError, and its answers are exactly the spec mapping —
each class-IN type-A question named dns, test-driver.tailscale or
controlplane.tailscale.com answered with its synthetic IP and TTL 60,
every other question echoed without an answer. -/
theorem claim_C5 (req : DNSRequestMsg)
    (hop : req.opCode = 0) (hqr : req.qr = false) (hne : req.questions ≠ []) :
    (req.questions.any hasNTPSuffix = true → createDNSResponse req = none) ∧
    (req.questions.any hasNTPSuffix = false →
      createDNSResponse req =
        some
          { ident := req.ident
            qr := true
            aa := true
            tc := false
            rd := req.rd
            ra := true
            opCode := 0
            rcode := 0
            questions := req.questions
            answers := req.questions.filterMap specDNSAnswer }) := by
  have hcond : ¬(req.opCode ≠ 0 ∨ req.qr = true ∨ req.questions = []) := by
    push_neg
    exact ⟨hop, by simp [hqr], hne⟩
  constructor
  · intro h
    unfold createDNSResponse
    rw [if_neg hcond, processQuestions_of_ntp _ h]
  · intro h
    have hall : ∀ q ∈ req.questions, hasNTPSuffix q = false := by
      intro q hq
      by_contra hcon
      have hany : req.questions.any hasNTPSuffix = true :=
        List.any_eq_true.mpr ⟨q, hq, by simpa using hcon⟩
      simp [hany] at h
    unfold createDNSResponse
    rw [if_neg hcond, processQuestions_of_no_ntp _ hall]

/-- C5, witness: the A/IN query for controlplane.tailscale.com is
answered with 52.52.0.1 and TTL 60, the question echoed. -/
theorem claim_C5_witness :
    createDNSResponse reqC5 =
      some
        { ident := reqC5.ident
          qr := true
          aa := true
          tc := false
          rd := reqC5.rd
          ra := true
          opCode := 0
          rcode := 0
          questions := reqC5.questions
          answers := reqC5.questions.filterMap specDNSAnswer } :=
  (claim_C5 reqC5 rfl rfl (by decide)).2 (by decide)

/-- The TCP interception predicate, spelled out as the claim's
three destination cases. -/
theorem shouldInterceptTCP_iff (derpIPs : List IPv4) (p : IPv4PacketView)
    (spt dpt : Nat) (ht : p.transport = .tcp spt dpt) :
    shouldInterceptTCP derpIPs p = true ↔
      (dpt = 123 ∨
        ((dpt = 80 ∨ dpt = 443) ∧
          (p.dstIP = fakeControlplaneIP ∨ p.dstIP ∈ derpIPs)) ∨
        (dpt = 8008 ∧ p.dstIP = fakeTestAgentIP)) := by
  simp only [shouldInterceptTCP, ht]
  split_ifs with hA hB hC
  · simp
    tauto
  · simp
    tauto
  · simp
    tauto
  · simp
    tauto

/-- C6: a non-local IPv4 TCP segment (destination IP neither the
router's LAN address nor 0.0.0.0) is injected into the TCP terminator
exactly when its destination is port 123 on any IP, port 80 or 443 on
the fake control plane or a DERP IP, or port 8008 on the fake test
agent IP; every other non-local TCP segment falls through the
dispatch and is dropped. -/
theorem claim_C6 (lanAddr : IPv4) (derpIPs : List IPv4) (p : IPv4PacketView)
    (spt dpt : Nat) (ht : p.transport = .tcp spt dpt)
    (h1 : p.dstIP ≠ lanAddr) (h2 : p.dstIP ≠ unspecifiedIPv4) :
    (handleIPv4ForRouter lanAddr derpIPs p = .injectTCP ↔
      (dpt = 123 ∨
        ((dpt = 80 ∨ dpt = 443) ∧
          (p.dstIP = fakeControlplaneIP ∨ p.dstIP ∈ derpIPs)) ∨
        (dpt = 8008 ∧ p.dstIP = fakeTestAgentIP))) ∧
    (handleIPv4ForRouter lanAddr derpIPs p ≠ .injectTCP →
      handleIPv4ForRouter lanAddr derpIPs p = .noAction) := by
  have hd : isDHCPRequest p = false := by simp [isDHCPRequest, ht]
  have hm : isMDNSQuery p = false := by simp [isMDNSQuery, ht]
  have hg : isIGMP p = false := by simp [isIGMP, ht]
  have hdns : isDNSRequest p = false := by simp [isDNSRequest, ht]
  have hn : isNATPMP p = false := by simp [isNATPMP, ht]
  have hu : isUDP p = false := by simp [isUDP, ht]
  have hrouter : handleIPv4ForRouter lanAddr derpIPs p =
      if shouldInterceptTCP derpIPs p then .injectTCP else .noAction := by
    unfold handleIPv4ForRouter
    simp [hd, hm, hg, hdns, hn, hu, h1, h2]
  have hs := shouldInterceptTCP_iff derpIPs p spt dpt ht
  rw [hrouter]
  by_cases hsi : shouldInterceptTCP derpIPs p = true
  · rw [if_pos hsi]
    exact ⟨⟨fun _ => hs.mp hsi, fun _ => rfl⟩, fun hne => absurd rfl hne⟩
  · rw [if_neg hsi]
    exact ⟨⟨fun h => absurd h (by decide), fun hr => absurd (hs.mpr hr) hsi⟩,
      fun _ => rfl⟩

/-- C6, witness: a TCP segment to 99.99.99.99 port 123 from the LAN
is injected into the TCP terminator. -/
theorem claim_C6_witness :
    handleIPv4ForRouter ⟨192, 168, 0, 1⟩ [] pC6 = .injectTCP :=
  (claim_C6 ⟨192, 168, 0, 1⟩ [] pC6 5555 123 rfl (by decide) (by decide)).1.mpr
    (Or.inl rfl)

/-- C7: a WAN UDP packet to port 3478 whose payload parses as a STUN
binding request makes the switch synthesize a reply whose source is
the original destination, whose destination is the original source
and whose payload is a binding success response with mapped address
equal to the original (already NATed) source, and route that reply
back through the same routeUDPPacket entry point; and a packet to any
other port whose destination address is no known WAN IP is dropped. -/
theorem claim_C7 (wanIPs : List IPv4) (fuel : Nat) (p q : WANUDPPacket)
    (txid : Nat) (hport : p.dst.port = 3478)
    (hparse : parseBindingRequest p.payload = some txid)
    (hq1 : q.dst.port ≠ 3478) (hq2 : q.dst.addr ∉ wanIPs) :
    routeUDPPacket wanIPs (fuel + 1) p =
      routeUDPPacket wanIPs fuel ⟨p.dst, p.src, stunResponse txid p.src⟩ ∧
    routeUDPPacket wanIPs (fuel + 1) q = [.dropNoNetwork q] := by
  constructor
  · simp [routeUDPPacket, hport, makeSTUNReply, hparse]
  · simp [routeUDPPacket, hq1, hq2]

/-- C7, witness: a concrete binding request is reflected back to its
sender with its own source as the mapped address, and a non-STUN
packet to an unknown WAN IP is dropped. -/
theorem claim_C7_witness :
    routeUDPPacket [⟨2, 0, 0, 1⟩] 2 pC7 =
      routeUDPPacket [⟨2, 0, 0, 1⟩] 1 ⟨pC7.dst, pC7.src, stunResponse 99 pC7.src⟩ ∧
    routeUDPPacket [⟨2, 0, 0, 1⟩] 2 qC7 = [.dropNoNetwork qC7] :=
  claim_C7 [⟨2, 0, 0, 1⟩] 1 pC7 qC7 99 rfl rfl (by decide) (by decide)

/-- C8: a NAT-PMP datagram whose body is exactly 00 00 is answered —
source and destination swapped — with the 12-octet reply of version
byte 0, opcode byte 128, 16-bit result code 0, the 32-bit big-endian
seconds-since-epoch, and the network's 4-octet WAN IP; any other
payload gets no reply; and the router dispatch hands a UDP datagram
to port 5351 with version byte 0, addressed to the router itself, to
the NAT-PMP handler. -/
theorem claim_C8 (now : Nat) (wan : IPv4) (req badReq : UDPPacket)
    (lanAddr : IPv4) (derpIPs : List IPv4) (p : IPv4PacketView) (spt : Nat)
    (pl : List Nat) (dns : Option DNSRequestMsg)
    (hgood : req.payload = [0, 0])
    (hbad : badReq.payload ≠ [0, 0])
    (hp : p.transport = .udp spt 5351 pl dns)
    (hp0 : pl.head? = some 0)
    (hploc : p.dstIP = lanAddr) :
    handleNATPMPRequest now wan req =
      some ⟨req.dst, req.src, [0, 128, 0, 0] ++ be32 (now % 2 ^ 32) ++ wan.bytes⟩ ∧
    ([0, 128, 0, 0] ++ be32 (now % 2 ^ 32) ++ wan.bytes).length = 12 ∧
    handleNATPMPRequest now wan badReq = none ∧
    handleIPv4ForRouter lanAddr derpIPs p = .respondNATPMP := by
  refine ⟨?_, ?_, ?_, ?_⟩
  · simp [handleNATPMPRequest, hgood]
  · simp [be32, IPv4.bytes]
  · simp [handleNATPMPRequest, hbad]
  · have hd : isDHCPRequest p = false := by simp [isDHCPRequest, hp]
    have hm : isMDNSQuery p = false := by simp [isMDNSQuery, hp]
    have hg : isIGMP p = false := by simp [isIGMP, hp]
    have hdns : isDNSRequest p = false := by simp [isDNSRequest, hp]
    have hn : isNATPMP p = true := by simp [isNATPMP, hp, hp0]
    unfold handleIPv4ForRouter
    simp [hd, hm, hg, hdns, hn, hploc]

/-- C8, witness: the concrete public-address request is answered with
the 12-octet reply, the non-announce body is dropped, and the
dispatch selects the NAT-PMP handler. -/
theorem claim_C8_witness :
    handleNATPMPRequest 1700000000 ⟨2, 0, 0, 1⟩ reqC8 =
      some ⟨reqC8.dst, reqC8.src,
        [0, 128, 0, 0] ++ be32 (1700000000 % 2 ^ 32) ++ (⟨2, 0, 0, 1⟩ : IPv4).bytes⟩ ∧
    ([0, 128, 0, 0] ++ be32 (1700000000 % 2 ^ 32) ++
      (⟨2, 0, 0, 1⟩ : IPv4).bytes).length = 12 ∧
    handleNATPMPRequest 1700000000 ⟨2, 0, 0, 1⟩ badC8 = none ∧
    handleIPv4ForRouter ⟨192, 168, 0, 1⟩ [] pC8 = .respondNATPMP :=
  claim_C8 1700000000 ⟨2, 0, 0, 1⟩ reqC8 badC8 ⟨192, 168, 0, 1⟩ [] pC8 4444
    [0, 0] none rfl (by decide) rfl rfl rfl

/-- C10: takeAgentConnOne, running atomically under the server-wide
mutex, returns a connection of the requested node and removes exactly
that connection from the pending set — the returned connection is no
longer in the set, every other pending connection remains, and a
second (mutex-serialized) take can never return the same connection. -/
theorem claim_C10 (conns : List AgentConn) (n : Nat) (hnd : conns.Nodup)
    (ac : AgentConn) (rest : List AgentConn)
    (h : takeAgentConnOne conns n = (some ac, rest))
    (c : AgentConn) (hc : c ∈ conns) (hcne : c ≠ ac)
    (ac2 : AgentConn) (rest2 : List AgentConn)
    (h2 : takeAgentConnOne rest n = (some ac2, rest2)) :
    ac.nodeId = n ∧ ac ∉ rest ∧ c ∈ rest ∧ ac2 ≠ ac := by
  unfold takeAgentConnOne at h
  cases hf : conns.find? (fun x => x.nodeId == n) with
  | none =>
    rw [hf] at h
    simp at h
  | some a =>
    rw [hf] at h
    rw [Prod.mk.injEq] at h
    obtain ⟨hsome, hrest⟩ := h
    have ha : a = ac := by
      simpa using hsome
    subst ha
    subst hrest
    have hnode : a.nodeId = n := by
      have := List.find?_some hf
      simpa using this
    have hnotmem : a ∉ conns.erase a := hnd.not_mem_erase
    have hcmem : c ∈ conns.erase a := (hnd.mem_erase_iff).mpr ⟨hcne, hc⟩
    have hne2 : ac2 ≠ a := by
      intro hEq
      unfold takeAgentConnOne at h2
      cases hf2 : (conns.erase a).find? (fun x => x.nodeId == n) with
      | none =>
        rw [hf2] at h2
        simp at h2
      | some b =>
        rw [hf2] at h2
        rw [Prod.mk.injEq] at h2
        obtain ⟨hsome2, _⟩ := h2
        have hb : b = ac2 := by simpa using hsome2
        have hbmem : b ∈ conns.erase a := List.mem_of_find?_eq_some hf2
        rw [hb, hEq] at hbmem
        exact hnotmem hbmem
    exact ⟨hnode, hnotmem, hcmem, hne2⟩

/-- C10, witness: with two pending connections from node 5, two
successive takes return the two distinct connections, and the
connection not returned by the first take is still pending. -/
theorem claim_C10_witness :
    (⟨1, 5⟩ : AgentConn).nodeId = 5 ∧
    (⟨1, 5⟩ : AgentConn) ∉ [(⟨2, 5⟩ : AgentConn)] ∧
    (⟨2, 5⟩ : AgentConn) ∈ [(⟨2, 5⟩ : AgentConn)] ∧
    (⟨2, 5⟩ : AgentConn) ≠ ⟨1, 5⟩ :=
  claim_C10 [⟨1, 5⟩, ⟨2, 5⟩] 5 (by decide) ⟨1, 5⟩ [⟨2, 5⟩] rfl ⟨2, 5⟩ (by decide)
    (by decide) ⟨2, 5⟩ [] rfl

end VNet
